import Mathlib

set_option maxHeartbeats 1000000

/-!
Verification development for the KHO-MISS auroral-spectrograph pipeline.

The Python sources are shallowly embedded below.  Pixel values are embedded
as `ℕ` (the PNGs carry unsigned 16-bit data), intermediate float arithmetic
as `ℚ` (the float64/float32 values occurring in the pipeline are exact for
the integer data and small frame counts involved, sums staying far below
2^53), and the purely real-valued wavelength algebra of
`calculate_pixel_position` as `ℝ` with `Real.sqrt` standing for `np.sqrt`.
Each definition's doc comment names the source function it embeds.
-/

/-! ### Generic numeric helpers -/

/-- Python 3 `round` to an integer: round half to even (used by
`scipy.ndimage.zoom` to compute the output length `int(round(n * factor))`). -/
def pythonRound (q : ℚ) : ℤ :=
  if q - ⌊q⌋ < 1/2 then ⌊q⌋
  else if (1 : ℚ)/2 < q - ⌊q⌋ then ⌊q⌋ + 1
  else if ⌊q⌋ % 2 = 0 then ⌊q⌋ else ⌊q⌋ + 1

/-- Output length of `scipy.ndimage.zoom` on a 1-D input of length `n` with
zoom `factor`: `int(round(n * factor))` (clamped at 0). -/
def zoom_output_length (n : ℕ) (factor : ℚ) : ℕ :=
  (pythonRound ((n : ℚ) * factor)).toNat

/-- Value interpolation used by our model of the 1-D `scipy.ndimage.zoom`
resampling at coordinate `pos` (linear between the two neighbouring input
samples).  The resampling call in `process_emission_line` passes no `order`
argument, so the real library uses its default spline order 3
(`resample_call_order` below); no theorem in this development depends on the
interpolated values, only on the output length, which is order-independent. -/
def linInterp (l : List ℚ) (pos : ℚ) : ℚ :=
  (1 - (pos - ⌊pos⌋)) * l.getD (Int.toNat ⌊pos⌋) 0
    + (pos - ⌊pos⌋) * l.getD (Int.toNat ⌊pos⌋ + 1) (l.getD (Int.toNat ⌊pos⌋) 0)

/-- Model of 1-D `scipy.ndimage.zoom input factor`: output length
`int(round(len * factor))`, sample `i` taken at input coordinate
`i * (n-1) / (m-1)` (scipy's `grid_mode=False` coordinate mapping). -/
def zoom1d (l : List ℚ) (factor : ℚ) : List ℚ :=
  if zoom_output_length l.length factor ≤ 1 ∨ l.length ≤ 1 then
    List.replicate (zoom_output_length l.length factor) (l.getD 0 0)
  else
    (List.range (zoom_output_length l.length factor)).map
      (fun i : ℕ => linInterp l ((i : ℚ) * ((l.length : ℚ) - 1)
        / ((zoom_output_length l.length factor : ℚ) - 1)))

/-- Insertion step for `sortQ`. -/
def insertSorted (x : ℚ) : List ℚ → List ℚ
  | [] => [x]
  | y :: ys => if x ≤ y then x :: y :: ys else y :: insertSorted x ys

/-- Insertion sort on rationals (used to take medians). -/
def sortQ (l : List ℚ) : List ℚ := l.foldr insertSorted []

/-- Pixel access with the zero padding `scipy.signal.medfilt2d` applies at
the array boundary. -/
def getPix (M : List (List ℚ)) (i j : ℤ) : ℚ :=
  if 0 ≤ i ∧ 0 ≤ j then (M.getD i.toNat []).getD j.toNat 0 else 0

/-- Median of the 3×3 zero-padded neighbourhood of `(i, j)` — the kernel of
`scipy.signal.medfilt2d` at its default `kernel_size=3`. -/
def median3x3 (M : List (List ℚ)) (i j : ℕ) : ℚ :=
  (sortQ [getPix M ((i : ℤ) - 1) ((j : ℤ) - 1), getPix M ((i : ℤ) - 1) (j : ℤ),
          getPix M ((i : ℤ) - 1) ((j : ℤ) + 1), getPix M (i : ℤ) ((j : ℤ) - 1),
          getPix M (i : ℤ) (j : ℤ), getPix M (i : ℤ) ((j : ℤ) + 1),
          getPix M ((i : ℤ) + 1) ((j : ℤ) - 1), getPix M ((i : ℤ) + 1) (j : ℤ),
          getPix M ((i : ℤ) + 1) ((j : ℤ) + 1)]).getD 4 0

/-- `scipy.signal.medfilt2d` with its default 3×3 kernel and zero padding. -/
def medfilt2d (M : List (List ℚ)) : List (List ℚ) :=
  (List.range M.length).map
    (fun i => (List.range (M.headD []).length).map (fun j => median3x3 M i j))

/-- `np.mean(M, axis=0)` on a rectangular array stored as rows. -/
def meanCols (M : List (List ℚ)) : List ℚ :=
  (List.range (M.headD []).length).map
    (fun j => (M.map (fun row => row.getD j 0)).sum / (M.length : ℚ))

/-- `np.clip x lo hi`. -/
def clipQ (x lo hi : ℚ) : ℚ := max lo (min x hi)

/-- `np.min` of a nonempty array (0 on the empty list, which the sources
never pass). -/
def listMin : List ℚ → ℚ
  | [] => 0
  | x :: xs => xs.foldl min x

/-- `np.max` of a nonempty array (0 on the empty list, which the sources
never pass). -/
def listMax : List ℚ → ℚ
  | [] => 0
  | x :: xs => xs.foldl max x

/-! ### Emission-Line Extractor
Embedded from `process_emission_line` in `RGB_Column_Maker_Ask_Date.py`
(lines 91-112) and, textually, from the variant in
`RGB_Column_Maker_Past5Minutes.py` (lines 99-122).  The two variants share
`num_rows_to_average`, the end row and everything from the column crop on;
they differ only in the start row. -/

/-- `num_rows_to_average = max(1, int(12 / binY))` (both variants): `int` of
the positive float quotient truncates, i.e. Nat division. -/
def num_rows_to_average (binY : ℕ) : ℕ := max 1 (12 / binY)

/-- Ask-date variant: `start_row = max(0, emission_row - binY // 2)`. -/
def start_row_ask (emission_row : ℤ) (binY : ℕ) : ℤ :=
  max 0 (emission_row - ((binY / 2 : ℕ) : ℤ))

/-- Past-5-minutes variant:
`start_row = max(emission_row - num_rows_to_average // 2, 0)`. -/
def start_row_p5 (emission_row : ℤ) (binY : ℕ) : ℤ :=
  max (emission_row - ((num_rows_to_average binY / 2 : ℕ) : ℤ)) 0

/-- Both variants:
`end_row = min(spectro_array.shape[0], emission_row + num_rows_to_average // 2 + 1)`. -/
def end_row (H : ℕ) (emission_row : ℤ) (binY : ℕ) : ℤ :=
  min (H : ℤ) (emission_row + ((num_rows_to_average binY / 2 : ℕ) : ℤ) + 1)

/-- `available_rows = end_row - start_row` for the ask-date variant. -/
def available_rows_ask (H : ℕ) (emission_row : ℤ) (binY : ℕ) : ℤ :=
  end_row H emission_row binY - start_row_ask emission_row binY

/-- `available_rows = end_row - start_row` for the past-5-minutes variant. -/
def available_rows_p5 (H : ℕ) (emission_row : ℤ) (binY : ℕ) : ℤ :=
  end_row H emission_row binY - start_row_p5 emission_row binY

/-- `spectro_array[:, pixel_range[0]:pixel_range[1]]` (NumPy column slicing
clamps at the row width). -/
def cropCols (M : List (List ℚ)) (p0 p1 : ℕ) : List (List ℚ) :=
  M.map (fun row => (row.drop p0).take (p1 - p0))

/-- `cropped[start_row:end_row, :]`; only reached with
`0 ≤ s` and `s + 2 ≤ e ≤ H`, where Python slicing is drop-then-take. -/
def sliceRows (M : List (List ℚ)) (s e : ℤ) : List (List ℚ) :=
  (M.drop s.toNat).take (e - s).toNat

/-- Shared tail of both `process_emission_line` variants: crop the spectral
columns to the horizon limits, slice the window rows, median-filter, average
across rows, and resample to 300 samples with
`zoom(averaged_row, 300 / len(averaged_row))`.  When the averaged row is
empty, Python's `300 / len(averaged_row)` raises `ZeroDivisionError`, which
the per-file handler catches; that exceptional exit is modelled as `none`. -/
def process_emission_line_core (M : List (List ℚ)) (s e : ℤ) (p0 p1 : ℕ) :
    Option (List ℚ) :=
  if (meanCols (medfilt2d (sliceRows (cropCols M p0 p1) s e))).length = 0 then none
  else some (zoom1d (meanCols (medfilt2d (sliceRows (cropCols M p0 p1) s e)))
    (300 / ((meanCols (medfilt2d (sliceRows (cropCols M p0 p1) s e))).length : ℚ)))

/-- `process_emission_line` of `RGB_Column_Maker_Ask_Date.py` (lines 91-112),
with the default `min_rows_for_average=2` the callers never override:
return `None` when `available_rows < 2`, otherwise the resampled profile. -/
def process_emission_line (M : List (List ℚ)) (emission_row : ℤ) (binY : ℕ)
    (pixel_range : ℕ × ℕ) : Option (List ℚ) :=
  if available_rows_ask M.length emission_row binY < 2 then none
  else process_emission_line_core M (start_row_ask emission_row binY)
    (end_row M.length emission_row binY) pixel_range.1 pixel_range.2

/-- `process_emission_line` of `RGB_Column_Maker_Past5Minutes.py`
(lines 99-122), as written in that file; it differs from the ask-date
variant only in the start row. -/
def process_emission_line_p5 (M : List (List ℚ)) (emission_row : ℤ) (binY : ℕ)
    (pixel_range : ℕ × ℕ) : Option (List ℚ) :=
  if available_rows_p5 M.length emission_row binY < 2 then none
  else process_emission_line_core M (start_row_p5 emission_row binY)
    (end_row M.length emission_row binY) pixel_range.1 pixel_range.2

/-- Default value of the `order` parameter of `scipy.ndimage.zoom` (cubic
spline). -/
def scipy_zoom_default_order : ℕ := 3

/-- Interpolation order in effect at the resampling call
`zoom(averaged_row, (300 / len(averaged_row)))` in `process_emission_line`
(both files): the call passes no `order` argument, so scipy's default
applies. -/
def resample_call_order : ℕ := scipy_zoom_default_order

/-- Interpolation order at the binning-correction call
`zoom(raw_data, (binY, binX), order = 1)` in `read_png_with_metadata`
(the only order-1 zoom in the sources). -/
def read_png_zoom_order : ℕ := 1

/-! ### RGB Column Synthesizer
Embedded from `scale_channel` and `create_rgb_column` in
`RGB_Column_Maker_Ask_Date.py` (lines 115-140). -/

/-- `scale_channel` (`RGB_Column_Maker_Ask_Date.py` lines 124-128; the
past-5-minutes variant at lines 141-146 is identical with its
`scale_factor` fixed to 1):
`clip(((channel_data - min) / range) * 255, 0, 255).astype(np.uint8)` when
`range != 0`, else `np.zeros_like(channel_data, dtype=np.uint8)`.  The
`uint8` cast truncates toward zero; the clipped value lies in `[0, 255]`,
so it is the floor. -/
def scale_channel (channel_data : List ℚ) : List ℕ :=
  if listMax channel_data - listMin channel_data ≠ 0 then
    channel_data.map (fun v => Int.toNat
      ⌊clipQ ((v - listMin channel_data)
        / (listMax channel_data - listMin channel_data) * 255) 0 255⌋)
  else List.replicate channel_data.length 0

/-- `np.stack((R, G, B), axis=-1)` of three `(300, 1)` channels, with the
row dimension flattened: entry `i` of the result is pixel `i` of the
`(300, 1, 3)` column. -/
def zip3 : List ℕ → List ℕ → List ℕ → List (ℕ × ℕ × ℕ)
  | x :: xs, y :: ys, z :: zs => (x, y, z) :: zip3 xs ys zs
  | _, _, _ => []

/-- `create_rgb_column` (`RGB_Column_Maker_Ask_Date.py` lines 115-140):
process the three emission lines; if any is `None`, return `None`;
otherwise scale each channel, reshape to `(300, 1)` and stack to
`(300, 1, 3)`.  `reshape(300, 1)` raises `ValueError` on a channel whose
length is not 300 and the final shape check returns `None` on a mismatch;
both no-output exits are modelled as `none`. -/
def create_rgb_column (spectro_array : List (List ℚ))
    (row_6300 row_5577 row_4278 : ℤ) (binY : ℕ) (pixel_range : ℕ × ℕ) :
    Option (List (ℕ × ℕ × ℕ)) :=
  match process_emission_line spectro_array row_6300 binY pixel_range,
        process_emission_line spectro_array row_5577 binY pixel_range,
        process_emission_line spectro_array row_4278 binY pixel_range with
  | some red, some green, some blue =>
    if (scale_channel red).length = 300 ∧ (scale_channel green).length = 300
        ∧ (scale_channel blue).length = 300 then
      some (zip3 (scale_channel red) (scale_channel green) (scale_channel blue))
    else none
  | _, _, _ => none

/-- Per-file step of `create_rgb_columns_for_date`
(`RGB_Column_Maker_Ask_Date.py` lines 177-200): the three
`calculate_pixel_position` results arrive as options; `if None in (...)`
skips the file before `create_rgb_column` is called, and a `None` column
is skipped before any file is saved, so the returned option is exactly
the RGB column persisted for that frame. -/
def rgb_rows_step (row_6300 row_5577 row_4278 : Option ℤ)
    (spectro_array : List (List ℚ)) (binY : ℕ) (pixel_range : ℕ × ℕ) :
    Option (List (ℕ × ℕ × ℕ)) :=
  match row_6300, row_5577, row_4278 with
  | some a, some b, some c => create_rgb_column spectro_array a b c binY pixel_range
  | _, _, _ => none

/-! ### Keogram Assembler
Embedded from `initialise_keogram` and `add_rgb_columns` in
`Keogram_Maker_Ask_Date.py` (lines 23-24, 62-93) and
`Keogram_Maker_Past5Minutes.py` (lines 36-37, 82-119); the two bodies of the
per-minute loop are identical, they differ only in the range of minutes
iterated. -/

/-- Parameters `num_pixels_y` of `parameters.py`. -/
def num_pixels_y : ℕ := 300

/-- Parameters `num_minutes = 24 * 60` of `parameters.py`. -/
def num_minutes : ℕ := 24 * 60

/-- An RGB-column PNG file on disk, as the keogram makers probe it:
`verifies`/`loads` record whether the two decode passes of
`verify_image_integrity` plus the `np.array(Image.open(...))` load succeed,
`shape` is the decoded array shape, `data y 0 c` the decoded pixel values. -/
structure RgbFile where
  verifies : Bool
  loads : Bool
  shape : ℕ × ℕ × ℕ
  data : ℕ → ℕ → ℕ → ℕ

/-- `initialise_keogram`: `np.full((num_pixels_y, num_minutes, 3), 255,
dtype=np.uint8)`, indexed as `keogram y minute channel`. -/
def initialise_keogram : ℕ → ℕ → ℕ → ℕ := fun _ _ _ => 255

/-- Condition under which `add_rgb_columns` overwrites a column: the file
exists (`some`), `verify_image_integrity` passes (both decode passes), the
`np.array(Image.open(...))` load succeeds, and the decoded shape equals
`(num_pixels_y, 1, 3)`. -/
def rgb_file_ok : Option RgbFile → Bool
  | none => false
  | some f => f.verifies && f.loads && decide (f.shape = (num_pixels_y, 1, 3))

/-- `keogram[:, minute:minute+1, :] = rgb_data.astype(np.uint8)`: overwrite
exactly column `minute` (the `uint8` cast wraps mod 256). -/
def insert_column (keogram : ℕ → ℕ → ℕ → ℕ) (minute : ℕ) (f : RgbFile) :
    ℕ → ℕ → ℕ → ℕ :=
  fun y m c => if m = minute then f.data y 0 c % 256 else keogram y m c

/-- One iteration of the per-minute loop of `add_rgb_columns` (identical in
both keogram makers): a missing, corrupted, unloadable or wrongly-shaped
file leaves the raster untouched and the loop continues. -/
def keogram_step (files : ℕ → Option RgbFile) (k : ℕ → ℕ → ℕ → ℕ)
    (minute : ℕ) : ℕ → ℕ → ℕ → ℕ :=
  match files minute with
  | some f => if rgb_file_ok (some f) then insert_column k minute f else k
  | none => k

/-- `add_rgb_columns` over a minute range `0, …, minutesIterated - 1`:
`range(num_minutes)` in `Keogram_Maker_Ask_Date.py`,
`range(minutes_passed)` in `Keogram_Maker_Past5Minutes.py`. -/
def add_rgb_columns (keogram : ℕ → ℕ → ℕ → ℕ) (files : ℕ → Option RgbFile)
    (minutesIterated : ℕ) : ℕ → ℕ → ℕ → ℕ :=
  (List.range minutesIterated).foldl (keogram_step files) keogram

/-- `add_rgb_columns` of `Keogram_Maker_Ask_Date.py`: all 1440 minutes of
the target day are probed. -/
def add_rgb_columns_ask (keogram : ℕ → ℕ → ℕ → ℕ)
    (files : ℕ → Option RgbFile) : ℕ → ℕ → ℕ → ℕ :=
  add_rgb_columns keogram files num_minutes

/-- `add_rgb_columns` of `Keogram_Maker_Past5Minutes.py`: only the
`minutes_passed` minutes from 00:00 UTC up to `now` are probed. -/
def add_rgb_columns_p5 (keogram : ℕ → ℕ → ℕ → ℕ)
    (files : ℕ → Option RgbFile) (minutes_passed : ℕ) : ℕ → ℕ → ℕ → ℕ :=
  add_rgb_columns keogram files minutes_passed

/-! ### Minute Averaging Engine
Embedded from `average_images` in `Average_png_Maker_Ask_Date.py`
(lines 33-130) and `Average_png_maker_Past5Minutes.py` (lines 33-136); the
per-minute accumulation, averaging, naming and metadata blocks of the two
files are identical. -/

/-- A successfully opened raw frame: its pixel array (flattened, unsigned
16-bit values) and its PNG text metadata `img.info` in chunk order. -/
structure RawImage where
  pixels : List ℕ
  info : List (String × String)

/-- Pixel part of `average_images` for one minute bucket (lines 82-98 of the
ask-date file): accumulate into a float64 array shaped like the first frame
(`np.zeros_like(img_array, dtype='float64')`), then
`(sum_img_array / count).astype(np.uint16)`.  The float64 sums of 16-bit
values are exact (far below 2^53) and the `uint16` cast of the nonnegative
quotient truncates, i.e. floors, then wraps mod 2^16. -/
def average_images_pixels (frames : List (List ℕ)) : List ℕ :=
  (frames.foldl (fun acc f => List.zipWith (fun a b => a + b) acc f)
      (List.replicate (frames.headD []).length 0)).map
    (fun v => (v / frames.length) % 65536)

/-- Metadata allow-list of `average_images` (line 114 of the ask-date file). -/
def metadata_allowlist : List String :=
  ["Exposure Time", "Date/Time", "Temperature", "Binning", "Note"]

/-- `metadata.get(key, "")` on the embedded metadata dictionary. -/
def metaGet (m : List (String × String)) (k : String) : String :=
  ((m.find? (fun kv => kv.1 == k)).map (fun kv => kv.2)).getD ""

/-- Text chunks `average_images` writes into the output PNG (lines 111-118
of the ask-date file): the allow-listed keys of the first frame's metadata
in order, then the appended note
`f"1-minute average image. {metadata.get('Note', '')}"`; with no metadata,
only `"1-minute average image."`.  No frame count appears anywhere. -/
def build_pnginfo (metadata : List (String × String)) : List (String × String) :=
  if metadata.isEmpty then [("Note", "1-minute average image.")]
  else (metadata.filter (fun kv => metadata_allowlist.contains kv.1))
    ++ [("Note", String.append "1-minute average image. " (metaGet metadata "Note"))]

/-- Zero-padded decimal formatting, `f"{n:0wd}"`. -/
def padZeros (w : ℕ) (n : ℕ) : String :=
  if (toString n).length < w then
    String.mk (List.replicate (w - (toString n).length) '0') ++ toString n
  else toString n

/-- `device_name = "MISS2"` (line 71 of the ask-date file, line 77 of the
past-5-minutes file); never reassigned — `get_device_name_from_metadata` is
defined in both files but never called. -/
def average_images_device_name : String := "MISS2"

/-- Output filename
`f"{device_name}-{year:04d}{month:02d}{day:02d}-{hour:02d}{minute:02d}00.png"`
(line 106 of the ask-date file). -/
def averaged_output_filename (year month day hour minute : ℕ) : String :=
  average_images_device_name ++ "-" ++ padZeros 4 year ++ padZeros 2 month
    ++ padZeros 2 day ++ "-" ++ padZeros 2 hour ++ padZeros 2 minute ++ "00.png"

/-- Processing of one minute bucket by `average_images`, restricted to the
frames that opened successfully (a frame that fails to open is skipped and
contributes to neither the sum nor the count): with `count > 0`, emit the
output filename, the averaged pixels, and the PNG metadata built from the
first frame's metadata. -/
def process_minute (frames : List RawImage) (year month day hour minute : ℕ) :
    Option (String × List ℕ × List (String × String)) :=
  if frames.isEmpty then none
  else some (averaged_output_filename year month day hour minute,
    average_images_pixels (frames.map (fun fr => fr.pixels)),
    build_pnginfo ((frames.headD ⟨[], []⟩).info))

/-- Filename discovery regex of both averaging engines
(`re.compile(r'^MISS2-(\d{8})-(\d{6})\.png$')`, ask-date line 37,
past-5-minutes line 42), as a decision procedure on the filename. -/
def filename_regex_match (s : String) : Bool :=
  decide (s.toList.length = 25) &&
  decide (s.toList.take 6 = "MISS2-".toList) &&
  ((s.toList.drop 6).take 8).all Char.isDigit &&
  decide (s.toList.getD 14 ' ' = '-') &&
  ((s.toList.drop 15).take 6).all Char.isDigit &&
  decide (s.toList.drop 21 = ".png".toList)

/-- Discovery pass of `average_images`: only filenames matching the regex
enter a minute bucket. -/
def discovered_files (files : List String) : List String :=
  files.filter filename_regex_match

/-! ### Module-level structure of `RGB_Column_Maker_Past5Minutes.py`
Names bound at module scope (imports and top-level assignments/defs), and
the logical-statement layout of `create_rgb_columns`, relevant to whether
the module compiles and what a run of it can execute. -/

/-- Names bound at module scope in `RGB_Column_Maker_Past5Minutes.py`
(imports, lines 15-21; top-level assignments, lines 24-34; function
definitions).  `zoom` is absent: the file has no
`from scipy.ndimage import zoom` line. -/
def rgb_p5_module_names : List String :=
  ["os", "np", "signal", "Image", "datetime", "timezone", "timedelta", "time",
   "parameters", "spectro_path", "output_folder_base", "miss1_wavelength_coeffs",
   "miss2_wavelength_coeffs", "coeffs_sensitivity_miss1", "coeffs_sensitivity_miss2",
   "miss1_horizon_limits", "miss2_horizon_limits", "processed_images", "current_day",
   "calculate_pixel_position", "ensure_directory_exists", "verify_image_integrity",
   "read_png_with_metadata", "extract_binning_from_metadata", "calculate_k_lambda",
   "process_emission_line", "create_rgb_column", "create_rgb_columns"]

/-- Kind of a logical Python statement line, as far as the grammar rule for
`try` blocks is concerned. -/
inductive PyStmt where
  | tryStart
  | exceptClause
  | plain
deriving DecidableEq

/-- Does the statement list properly close a `try:` opened at indentation
`i`?  Python's grammar requires the first subsequent logical line indented
at most `i` to be an `except` (or `finally`) clause at exactly indentation
`i`; any other dedent is a syntax error, as is reaching the end of input. -/
def closesTry (i : ℕ) : List (ℕ × PyStmt) → Bool
  | [] => false
  | (j, s) :: rest =>
    if i < j then closesTry i rest
    else decide (j = i) && decide (s = PyStmt.exceptClause)

/-- Python's parse-level well-formedness of `try` blocks over a list of
(indentation, statement-kind) logical lines: every `try:` must be closed as
in `closesTry`.  A list on which this is `false` is rejected by the Python
parser with `SyntaxError`, before any statement of the module runs. -/
def pythonTryBlocksOk : List (ℕ × PyStmt) → Bool
  | [] => true
  | (i, PyStmt.tryStart) :: rest => closesTry i rest && pythonTryBlocksOk rest
  | _ :: rest => pythonTryBlocksOk rest

/-- Logical statement lines of `create_rgb_columns`
(`RGB_Column_Maker_Past5Minutes.py` lines 167-272) as (indentation, kind)
pairs, transcribed line by line; comment-only and blank lines are ignored by
the tokenizer, and lines 255-256 are parenthesized continuations of
line 254.  The `try:` at line 203 (indent 8) is followed at line 218 by an
`if` dedented to indent 8 — not an `except` clause; the only `except` is at
line 271, indent 4. -/
def create_rgb_columns_stmt_layout : List (ℕ × PyStmt) :=
  [(4, .plain),        -- 167 global
   (4, .plain),        -- 169 current_time_UT =
   (4, .plain),        -- 170 five_minutes_ago =
   (4, .plain),        -- 173 if
   (8, .plain),        -- 174 processed_images.clear()
   (8, .plain),        -- 175 current_day =
   (4, .plain),        -- 178 spectro_path_dir =
   (4, .plain),        -- 179 ensure_directory_exists
   (4, .plain),        -- 181 output_folder =
   (4, .plain),        -- 182 ensure_directory_exists
   (4, .plain),        -- 184 matching_files =
   (4, .plain),        -- 186 if
   (8, .plain),        -- 187 print
   (8, .plain),        -- 188 return
   (4, .plain),        -- 190 for filename
   (8, .plain),        -- 191 png_file_path =
   (8, .plain),        -- 194 file_mod_time =
   (8, .plain),        -- 195 if
   (12, .plain),       -- 196 print
   (12, .plain),       -- 197 continue
   (8, .plain),        -- 199 if
   (12, .plain),       -- 200 print
   (12, .plain),       -- 201 continue
   (8, .tryStart),     -- 203 try:
   (12, .plain),       -- 206 spectro_data, metadata =
   (12, .plain),       -- 207 binX, binY =
   (12, .plain),       -- 208 print
   (12, .plain),       -- 210 if
   (16, .plain),       -- 211 print
   (16, .plain),       -- 212 continue
   (12, .plain),       -- 213 spectro_data, metadata =
   (8, .plain),        -- 218 if "MISS1"
   (12, .plain),       -- 219 pixel_range =
   (12, .plain),       -- 220 coeffs =
   (12, .plain),       -- 221 coeffs_sensitivity =
   (8, .plain),        -- 222 elif
   (12, .plain),       -- 223 pixel_range =
   (12, .plain),       -- 224 coeffs =
   (12, .plain),       -- 225 coeffs_sensitivity =
   (8, .plain),        -- 226 else
   (12, .plain),       -- 227 print
   (12, .plain),       -- 228 continue
   (8, .plain),        -- 231 emission_wavelengths =
   (8, .plain),        -- 234 max_pixel_value =
   (8, .plain),        -- 235 row_6300 =
   (8, .plain),        -- 236 row_5577 =
   (8, .plain),        -- 237 row_4278 =
   (7, .plain),        -- 239 if (7-space indent in the source)
   (16, .plain),       -- 240 print
   (16, .plain),       -- 241 continue
   (8, .plain),        -- 244 row_6300 =
   (8, .plain),        -- 245 row_5577 =
   (8, .plain),        -- 246 row_4278 =
   (8, .plain),        -- 249 k_lambda_6300 =
   (8, .plain),        -- 250 k_lambda_5577 =
   (8, .plain),        -- 251 k_lambda_4278 =
   (8, .plain),        -- 254 RGB_image = (continues through 256)
   (8, .plain),        -- 258 if
   (12, .plain),       -- 259 print
   (12, .plain),       -- 260 continue
   (8, .plain),        -- 262 RGB_pil_image =
   (8, .plain),        -- 263 resized_RGB_image =
   (8, .plain),        -- 266 rgb_filename =
   (8, .plain),        -- 267 rgb_image_output_path =
   (8, .plain),        -- 268 resized_RGB_image.save
   (8, .plain),        -- 269 print
   (4, .exceptClause), -- 271 except
   (8, .plain)]        -- 272 print

/-! ### Calibration Model
Embedded from `calculate_wavelength` in `Spectrogram_Processor_Past5Minutes.py`
(lines 37-40) and the two `calculate_pixel_position` variants
(`RGB_Column_Maker_Past5Minutes.py` lines 37-57,
`RGB_Column_Maker_Ask_Date.py` lines 27-45), over `ℝ` with `Real.sqrt` for
`np.sqrt`. -/

/-- MISS2 wavelength coefficient `a_0 = 4088.509` (`parameters.py`). -/
noncomputable def miss2_c0 : ℝ := 4088509 / 1000

/-- MISS2 wavelength coefficient `a_1 = 2.673936` (`parameters.py`). -/
noncomputable def miss2_c1 : ℝ := 2673936 / 1000000

/-- MISS2 wavelength coefficient `a_2 = 1.376154e-4` (`parameters.py`). -/
noncomputable def miss2_c2 : ℝ := 1376154 / 10000000000

/-- `calculate_wavelength` (`Spectrogram_Processor_Past5Minutes.py` line 38):
`coeffs[0] + coeffs[1] * p + coeffs[2] * p**2`. -/
noncomputable def calculate_wavelength (c0 c1 c2 p : ℝ) : ℝ :=
  c0 + c1 * p + c2 * p ^ 2

/-- `calculate_pixel_position` of `RGB_Column_Maker_Past5Minutes.py`
(lines 37-57): discriminant `coeffs[1]**2 - 4*coeffs[2]*(coeffs[0] - w)`;
negative discriminant returns `None`; else the quadratic-formula root
`(-coeffs[1] + sqrt(disc)) / (2*coeffs[2])` is divided by `binY` and
returned iff it lies in `[0, max_pixel_value]`, else `None`. -/
noncomputable def calculate_pixel_position
    (wavelength c0 c1 c2 max_pixel_value binY : ℝ) : Option ℝ :=
  if c1 ^ 2 - 4 * c2 * (c0 - wavelength) < 0 then none
  else if 0 ≤ (-c1 + Real.sqrt (c1 ^ 2 - 4 * c2 * (c0 - wavelength))) / (2 * c2) / binY
      ∧ (-c1 + Real.sqrt (c1 ^ 2 - 4 * c2 * (c0 - wavelength))) / (2 * c2) / binY
        ≤ max_pixel_value then
    some ((-c1 + Real.sqrt (c1 ^ 2 - 4 * c2 * (c0 - wavelength))) / (2 * c2) / binY)
  else none

/-- `calculate_pixel_position` of `RGB_Column_Maker_Ask_Date.py`
(lines 27-45): the 2078-shifted root
`(coeffs[1] + 2078*coeffs[2] - sqrt(coeffs[1]**2 - 4*coeffs[0]*coeffs[2]
+ 4*coeffs[2]*w)) / (2*coeffs[2])`, divided by `binY` and returned iff in
`[0, max_pixel_value]`, else `None`.  With a negative radicand `np.sqrt`
yields NaN, every NaN comparison is false and the function returns `None`;
that path is the explicit first branch here. -/
noncomputable def calculate_pixel_position_ask
    (wavelength c0 c1 c2 max_pixel_value binY : ℝ) : Option ℝ :=
  if c1 ^ 2 - 4 * c0 * c2 + 4 * c2 * wavelength < 0 then none
  else if 0 ≤ (c1 + 2078 * c2 - Real.sqrt (c1 ^ 2 - 4 * c0 * c2 + 4 * c2 * wavelength))
        / (2 * c2) / binY
      ∧ (c1 + 2078 * c2 - Real.sqrt (c1 ^ 2 - 4 * c0 * c2 + 4 * c2 * wavelength))
        / (2 * c2) / binY ≤ max_pixel_value then
    some ((c1 + 2078 * c2 - Real.sqrt (c1 ^ 2 - 4 * c0 * c2 + 4 * c2 * wavelength))
      / (2 * c2) / binY)
  else none

/-! ### Helper lemmas -/

theorem foldl_min_le_init : ∀ (xs : List ℚ) (a : ℚ), xs.foldl min a ≤ a := by
  intro xs
  induction xs with
  | nil => intro a; exact le_rfl
  | cons x xs ih =>
    intro a
    exact le_trans (ih (min a x)) (min_le_left a x)

theorem foldl_min_le_mem : ∀ (xs : List ℚ) (a x : ℚ), x ∈ xs → xs.foldl min a ≤ x := by
  intro xs
  induction xs with
  | nil => intro a x hx; cases hx
  | cons y ys ih =>
    intro a x hx
    rcases List.mem_cons.1 hx with h | h
    · subst h
      exact le_trans (foldl_min_le_init ys (min a x)) (min_le_right a x)
    · exact ih (min a y) x h

theorem init_le_foldl_max : ∀ (xs : List ℚ) (a : ℚ), a ≤ xs.foldl max a := by
  intro xs
  induction xs with
  | nil => intro a; exact le_rfl
  | cons x xs ih =>
    intro a
    exact le_trans (le_max_left a x) (ih (max a x))

theorem mem_le_foldl_max : ∀ (xs : List ℚ) (a x : ℚ), x ∈ xs → x ≤ xs.foldl max a := by
  intro xs
  induction xs with
  | nil => intro a x hx; cases hx
  | cons y ys ih =>
    intro a x hx
    rcases List.mem_cons.1 hx with h | h
    · subst h
      exact le_trans (le_max_right a x) (init_le_foldl_max ys (max a x))
    · exact ih (max a y) x h

theorem listMin_le_of_mem (l : List ℚ) (x : ℚ) (hx : x ∈ l) : listMin l ≤ x := by
  cases l with
  | nil => cases hx
  | cons y ys =>
    rcases List.mem_cons.1 hx with h | h
    · subst h; exact foldl_min_le_init ys x
    · exact foldl_min_le_mem ys y x h

theorem le_listMax_of_mem (l : List ℚ) (x : ℚ) (hx : x ∈ l) : x ≤ listMax l := by
  cases l with
  | nil => cases hx
  | cons y ys =>
    rcases List.mem_cons.1 hx with h | h
    · subst h; exact init_le_foldl_max ys x
    · exact mem_le_foldl_max ys y x h

theorem listMin_le_listMax (l : List ℚ) (hl : l ≠ []) : listMin l ≤ listMax l := by
  cases l with
  | nil => exact absurd rfl hl
  | cons y ys =>
    exact le_trans (listMin_le_of_mem (y :: ys) y (List.mem_cons_self y ys))
      (le_listMax_of_mem (y :: ys) y (List.mem_cons_self y ys))

theorem zoom1d_length (l : List ℚ) (f : ℚ) :
    (zoom1d l f).length = zoom_output_length l.length f := by
  unfold zoom1d
  split
  · exact List.length_replicate _ _
  · rw [List.length_map, List.length_range]

theorem zoom_output_length_cancel (n : ℕ) (hn : n ≠ 0) :
    zoom_output_length n (300 / (n : ℚ)) = 300 := by
  have h : ((n : ℚ)) * (300 / (n : ℚ)) = 300 := by
    field_simp
  unfold zoom_output_length pythonRound
  rw [h]
  norm_num
  rfl

theorem meanCols_length (X : List (List ℚ)) :
    (meanCols X).length = (X.headD []).length := by
  simp [meanCols]

theorem medfilt2d_headD_length (X : List (List ℚ)) (hX : X ≠ []) :
    ((medfilt2d X).headD []).length = (X.headD []).length := by
  cases X with
  | nil => exact absurd rfl hX
  | cons row rows =>
    simp [medfilt2d, List.range_succ_eq_map]

theorem process_emission_line_core_some (M : List (List ℚ)) (s e : ℤ) (p0 p1 : ℕ)
    (out : List ℚ) (h : process_emission_line_core M s e p0 p1 = some out) :
    out.length = 300 := by
  unfold process_emission_line_core at h
  split at h
  · exact absurd h (by simp)
  · rename_i hlen
    have := Option.some.inj h
    rw [← this, zoom1d_length, zoom_output_length_cancel _ hlen]

/-! ### Claim C9 -/

/-- C9 counterexample: the claim's mechanism — per-file `NameError` from the
undefined `zoom`, reported by the per-file exception handler, with processing
continuing — presupposes that `RGB_Column_Maker_Past5Minutes.py` compiles and
its per-file loop runs.  It does not: the `try:` at line 203 (indent 8) is
dedented into at line 218 without any `except`/`finally` clause at indent 8,
so the module layout violates Python's `try`-block grammar and the parser
raises `SyntaxError` before any file is read. -/
theorem C9_counterexample_module_syntax :
    pythonTryBlocksOk create_rgb_columns_stmt_layout = false := by decide

/-- C9 (amended): the past-5-minutes RGB column maker never writes an RGB
column file for any input, but because the module fails to parse (the `try:`
at line 203 is never closed by an `except` clause at its indentation, a
`SyntaxError`), so no file is ever processed; and indeed `zoom` is neither
imported nor defined at module scope, so even with the indentation repaired
every read would raise `NameError`. -/
theorem C9_no_rgb_output :
    pythonTryBlocksOk create_rgb_columns_stmt_layout = false
      ∧ rgb_p5_module_names.contains "zoom" = false := by decide

/-! ### Claim C8 -/

/-- C8 counterexample: for a minute bucket of 4 frames whose first frame
carries the note "MISS2 spectrogram", the emitted metadata is exactly the
allow-listed copy plus the note "1-minute average image. MISS2 spectrogram";
this equals the metadata emitted for 5 frames (the builder never sees the
frame count), and the string "4-frame average" does not occur in it, so the
note carries no count-bearing phrase. -/
theorem C8_counterexample_note_lacks_count :
    (process_minute (List.replicate 4 ⟨[1000], [("Note", "MISS2 spectrogram")]⟩)
        2024 6 1 12 3).map (fun out => out.2.2)
      = some [("Note", "MISS2 spectrogram"),
              ("Note", "1-minute average image. MISS2 spectrogram")]
    ∧ (process_minute (List.replicate 4 ⟨[1000], [("Note", "MISS2 spectrogram")]⟩)
        2024 6 1 12 3).map (fun out => out.2.2)
      = (process_minute (List.replicate 5 ⟨[1000], [("Note", "MISS2 spectrogram")]⟩)
        2024 6 1 12 3).map (fun out => out.2.2)
    ∧ ¬ ("4-frame average".toList
        <:+: "1-minute average image. MISS2 spectrogram".toList) := by
  refine ⟨by decide, by decide, by decide⟩

/-- C8 (amended): every AveragedFrame carries the allow-listed keys copied
from the first successfully opened frame plus the appended note
"1-minute average image. " followed by the first frame's original note
("1-minute average image." alone when no metadata is available); every
emitted key is allow-listed; and the emitted metadata is independent of the
number of contributing frames — the note carries no frame count. -/
theorem C8_metadata_note (md : List (String × String)) (fr : RawImage)
    (n m : ℕ) (y mo d hh mi : ℕ) (hn : n ≠ 0) (hm : m ≠ 0) :
    build_pnginfo [] = [("Note", "1-minute average image.")]
    ∧ (md ≠ [] → build_pnginfo md
        = md.filter (fun kv => metadata_allowlist.contains kv.1)
          ++ [("Note", String.append "1-minute average image. " (metaGet md "Note"))])
    ∧ (∀ kv ∈ build_pnginfo md, kv.1 ∈ metadata_allowlist)
    ∧ (process_minute (List.replicate n fr) y mo d hh mi).map (fun out => out.2.2)
      = (process_minute (List.replicate m fr) y mo d hh mi).map (fun out => out.2.2) := by
  obtain ⟨k, rfl⟩ := Nat.exists_eq_succ_of_ne_zero hn
  obtain ⟨k', rfl⟩ := Nat.exists_eq_succ_of_ne_zero hm
  refine ⟨rfl, ?_, ?_, ?_⟩
  · intro hmd
    have hfalse : md.isEmpty = false := by
      cases md with
      | nil => exact absurd rfl hmd
      | cons a as => rfl
    simp [build_pnginfo, hfalse]
  · intro kv hkv
    by_cases hmd : md.isEmpty
    · simp [build_pnginfo, hmd] at hkv
      rw [hkv]
      decide
    · rw [Bool.not_eq_true] at hmd
      simp only [build_pnginfo, hmd, Bool.false_eq_true, if_false] at hkv
      rcases List.mem_append.1 hkv with hkv | hkv
      · have := (List.mem_filter.1 hkv).2
        simpa using this
      · simp at hkv
        rw [hkv]
        show "Note" ∈ metadata_allowlist
        decide
  · simp [process_minute, List.replicate_succ]

/-- C8 witness: the amended statement instantiated at a concrete metadata
dictionary, frame and bucket sizes 1 and 2. -/
theorem C8_metadata_note_witness :
    build_pnginfo [] = [("Note", "1-minute average image.")]
    ∧ ([(("Binning" : String), ("1x4" : String))] ≠ [] →
        build_pnginfo [("Binning", "1x4")]
        = ([(("Binning" : String), ("1x4" : String))].filter
            (fun kv => metadata_allowlist.contains kv.1))
          ++ [("Note", String.append "1-minute average image. "
              (metaGet [("Binning", "1x4")] "Note"))])
    ∧ (∀ kv ∈ build_pnginfo [("Binning", "1x4")], kv.1 ∈ metadata_allowlist)
    ∧ (process_minute (List.replicate 1 ⟨[5], []⟩) 2024 6 1 12 3).map
        (fun out => out.2.2)
      = (process_minute (List.replicate 2 ⟨[5], []⟩) 2024 6 1 12 3).map
        (fun out => out.2.2) :=
  C8_metadata_note [("Binning", "1x4")] ⟨[5], []⟩ 1 2 2024 6 1 12 3
    (by decide) (by decide)

/-! ### Claim C10 -/

theorem averaged_output_filename_prefix (y mo d hh mi : ℕ) :
    ∃ t, averaged_output_filename y mo d hh mi = "MISS2-" ++ t := by
  refine ⟨padZeros 4 y ++ (padZeros 2 mo ++ (padZeros 2 d ++ ("-" ++ (padZeros 2 hh
    ++ (padZeros 2 mi ++ "00.png"))))), ?_⟩
  unfold averaged_output_filename average_images_device_name
  rw [show ("MISS2" : String) ++ "-" = "MISS2-" from rfl]
  repeat rw [String.append_assoc]

/-- C10: the minute-averaging engines discover only filenames matching the
MISS2-anchored regex (every match begins with "MISS2-", and a MISS1-named
file never matches), and every output filename they emit begins with the
constant device token "MISS2-" regardless of the frames' metadata — so
MISS1-named frames are never averaged by this engine. -/
theorem C10_device_token (files : List String) (s : String)
    (frames : List RawImage) (y mo d hh mi : ℕ) :
    (filename_regex_match s = true → s.toList.take 6 = "MISS2-".toList)
    ∧ (s ∈ discovered_files files → filename_regex_match s = true)
    ∧ filename_regex_match "MISS1-20240601-120300.png" = false
    ∧ (∀ out, process_minute frames y mo d hh mi = some out →
        ∃ t, out.1 = "MISS2-" ++ t) := by
  refine ⟨?_, ?_, by decide, ?_⟩
  · intro hm
    simp only [filename_regex_match, Bool.and_eq_true, decide_eq_true_eq] at hm
    exact hm.1.1.1.1.2
  · intro h
    exact (List.mem_filter.1 h).2
  · intro out hout
    unfold process_minute at hout
    split at hout
    · simp at hout
    · have h1 := Option.some.inj hout
      obtain ⟨t, ht⟩ := averaged_output_filename_prefix y mo d hh mi
      exact ⟨t, by rw [← h1, ht]⟩

/-- C10 witness: the regex accepts a MISS2-named frame (whose name indeed
begins with "MISS2-") and rejects the corresponding MISS1 name. -/
theorem C10_device_token_witness :
    ("MISS2-20240601-120300.png").toList.take 6 = "MISS2-".toList
    ∧ filename_regex_match "MISS1-20240601-120300.png" = false :=
  ⟨(C10_device_token [] "MISS2-20240601-120300.png" [] 0 0 0 0 0).1 (by decide),
   (C10_device_token [] "" [] 0 0 0 0 0).2.2.1⟩

/-! ### Claim C3 -/

/-- C3 counterexample: the resampling call
`zoom(averaged_row, (300 / len(averaged_row)))` in `process_emission_line`
passes no `order` argument, so it runs at scipy's default spline order 3 —
not the order-1 (linear) interpolation the claim asserts (order 1 appears
only in the binning-correction zoom of `read_png_with_metadata`). -/
theorem C3_counterexample_order :
    resample_call_order = 3 ∧ resample_call_order ≠ 1 := by decide

/-- C3 (amended): for every input profile of length L ≥ 1 that reaches the
resampling step, the output has exactly 300 samples (the zoom factor is
300/L, and `int(round(L * (300/L))) = 300`); both `process_emission_line`
variants return 300-sample profiles whenever they succeed; the resampling
runs at scipy's default spline order 3, not order 1. -/
theorem C3_fixed_length (L : ℕ) (hL : 1 ≤ L) (M : List (List ℚ)) (r : ℤ)
    (binY : ℕ) (pr : ℕ × ℕ) (out out' : List ℚ) :
    zoom_output_length L (300 / (L : ℚ)) = 300
    ∧ (process_emission_line M r binY pr = some out → out.length = 300)
    ∧ (process_emission_line_p5 M r binY pr = some out' → out'.length = 300)
    ∧ resample_call_order = scipy_zoom_default_order := by
  refine ⟨zoom_output_length_cancel L (by omega), ?_, ?_, rfl⟩
  · intro h
    unfold process_emission_line at h
    split at h
    · simp at h
    · exact process_emission_line_core_some _ _ _ _ _ _ h
  · intro h
    unfold process_emission_line_p5 at h
    split at h
    · simp at h
    · exact process_emission_line_core_some _ _ _ _ _ _ h

/-- C3 witness: at the MISS2 horizon width L = 1116 - 271 = 845, the
resampled length is exactly 300. -/
theorem C3_fixed_length_witness :
    zoom_output_length 845 (300 / ((845 : ℕ) : ℚ)) = 300
    ∧ resample_call_order = scipy_zoom_default_order :=
  ⟨(C3_fixed_length 845 (by norm_num) [] 0 0 (0, 0) [] []).1,
   (C3_fixed_length 845 (by norm_num) [] 0 0 (0, 0) [] []).2.2.2⟩

/-! ### Claim C5 -/

/-- C5: if an emission-line sample has zero dynamic range (max = min), the
emitted channel is all zeros (no division is reached); otherwise every
output value is `clip(((v - min) / (max - min)) * 255, 0, 255)` truncated to
8 bits, the minimum value mapping to 0 and the maximum to 255. -/
theorem C5_zero_range_channel (channel : List ℚ) :
    (listMax channel = listMin channel →
      scale_channel channel = List.replicate channel.length 0)
    ∧ (listMax channel ≠ listMin channel →
      scale_channel channel = channel.map (fun v => Int.toNat
        ⌊clipQ ((v - listMin channel)
          / (listMax channel - listMin channel) * 255) 0 255⌋)
      ∧ Int.toNat ⌊clipQ ((listMin channel - listMin channel)
          / (listMax channel - listMin channel) * 255) 0 255⌋ = 0
      ∧ Int.toNat ⌊clipQ ((listMax channel - listMin channel)
          / (listMax channel - listMin channel) * 255) 0 255⌋ = 255) := by
  constructor
  · intro h
    unfold scale_channel
    rw [if_neg]
    intro hne
    exact hne (by rw [h, sub_self])
  · intro h
    have hrng : listMax channel - listMin channel ≠ 0 := sub_ne_zero.mpr h
    refine ⟨by unfold scale_channel; rw [if_pos hrng], ?_, ?_⟩
    · rw [sub_self, zero_div, zero_mul]
      norm_num [clipQ]
    · rw [div_self hrng, one_mul]
      norm_num [clipQ]
      rfl

/-- C5 witness: a constant channel scales to all zeros and a channel with
range scales its maximum to 255. -/
theorem C5_zero_range_channel_witness :
    scale_channel [(3 : ℚ), 3, 3] = List.replicate 3 0
    ∧ Int.toNat ⌊clipQ ((listMax [(0 : ℚ), 1, 2, 4] - listMin [(0 : ℚ), 1, 2, 4])
        / (listMax [(0 : ℚ), 1, 2, 4] - listMin [(0 : ℚ), 1, 2, 4]) * 255) 0 255⌋
      = 255 :=
  ⟨by
    have h := (C5_zero_range_channel [(3 : ℚ), 3, 3]).1 (by decide)
    simpa using h,
   ((C5_zero_range_channel [(0 : ℚ), 1, 2, 4]).2 (by decide)).2.2⟩

/-! ### Claim C4 -/

theorem add_rgb_columns_succ (keo : ℕ → ℕ → ℕ → ℕ) (files : ℕ → Option RgbFile)
    (n : ℕ) :
    add_rgb_columns keo files (n + 1)
      = keogram_step files (add_rgb_columns keo files n) n := by
  unfold add_rgb_columns
  rw [List.range_succ, List.foldl_append]
  rfl

theorem add_rgb_columns_hit (n : ℕ) (keo : ℕ → ℕ → ℕ → ℕ)
    (files : ℕ → Option RgbFile) (m : ℕ) (f : RgbFile) (y c : ℕ)
    (hmn : m < n) (hf : files m = some f) (hok : rgb_file_ok (some f) = true) :
    add_rgb_columns keo files n y m c = f.data y 0 c % 256 := by
  induction n with
  | zero => omega
  | succ k ih =>
    rw [add_rgb_columns_succ]
    by_cases hmk : m = k
    · subst hmk
      unfold keogram_step
      rw [hf]
      simp [hok, insert_column]
    · have hstep : keogram_step files (add_rgb_columns keo files k) k y m c
          = add_rgb_columns keo files k y m c := by
        unfold keogram_step
        cases hfk : files k with
        | none => rfl
        | some g =>
          cases hokg : rgb_file_ok (some g) with
          | false => simp [hokg]
          | true => simp [hokg, insert_column, hmk]
      rw [hstep]
      exact ih (by omega)

theorem add_rgb_columns_miss (n : ℕ) (keo : ℕ → ℕ → ℕ → ℕ)
    (files : ℕ → Option RgbFile) (m y c : ℕ)
    (h : n ≤ m ∨ rgb_file_ok (files m) = false) :
    add_rgb_columns keo files n y m c = keo y m c := by
  induction n with
  | zero => rfl
  | succ k ih =>
    rw [add_rgb_columns_succ]
    have hstep : keogram_step files (add_rgb_columns keo files k) k y m c
        = add_rgb_columns keo files k y m c := by
      unfold keogram_step
      cases hfk : files k with
      | none => rfl
      | some g =>
        cases hokg : rgb_file_ok (some g) with
        | false => simp [hokg]
        | true =>
          have hmk : m ≠ k := by
            rcases h with h | h
            · omega
            · intro he
              subst he
              rw [hfk] at h
              rw [h] at hokg
              cases hokg
          simp [hokg, insert_column, hmk]
    rw [hstep]
    apply ih
    rcases h with h | h
    · exact Or.inl (by omega)
    · exact Or.inr h

/-- C4 counterexample: a past-5-minutes assembly pass run at 00:10 UTC
(`minutes_passed = 10`) never probes minute 20, so a perfectly valid column
file for minute 20 — present, verifying, loading, of shape (300, 1, 3) with
pixel value 7 — does not overwrite column 20: the column stays white (255),
refuting the claimed iff over every minute of the target day. -/
theorem C4_counterexample_window :
    add_rgb_columns_p5 initialise_keogram
      (fun m => if m = 20 then some ⟨true, true, (300, 1, 3), fun _ _ _ => 7⟩
        else none) 10 0 20 0 = 255
    ∧ rgb_file_ok ((fun m => if m = 20 then
        some (⟨true, true, (300, 1, 3), fun _ _ _ => 7⟩ : RgbFile) else none) 20)
      = true
    ∧ (255 : ℕ) ≠ 7 % 256 := by
  refine ⟨rfl, rfl, by decide⟩

/-- C4 (amended): within the iterated minute window (all 1440 minutes of the
day for the ask-date assembler, the minutes elapsed since 00:00 UTC for the
past-5-minutes assembler), column m is overwritten with the file's pixel
data iff the expected file for minute m exists, passes the double-decode
integrity check, loads, and has shape exactly (300, 1, 3); every other
column — including every minute outside the window — is left unchanged, so
never-populated columns keep the initial white value 255, and no
integrity-check or shape failure aborts the assembly pass (the fold always
completes). -/
theorem C4_keogram_columns (keo : ℕ → ℕ → ℕ → ℕ) (files : ℕ → Option RgbFile)
    (n : ℕ) :
    (∀ m f y c, m < n → files m = some f → rgb_file_ok (some f) = true →
      add_rgb_columns keo files n y m c = f.data y 0 c % 256)
    ∧ (∀ m y c, n ≤ m ∨ rgb_file_ok (files m) = false →
      add_rgb_columns keo files n y m c = keo y m c)
    ∧ (∀ m y c, n ≤ m ∨ rgb_file_ok (files m) = false →
      add_rgb_columns initialise_keogram files n y m c = 255)
    ∧ (∀ m f y c, m < num_minutes → files m = some f →
      rgb_file_ok (some f) = true →
      add_rgb_columns_ask keo files y m c = f.data y 0 c % 256)
    ∧ (∀ mp m y c, mp ≤ m ∨ rgb_file_ok (files m) = false →
      add_rgb_columns_p5 keo files mp y m c = keo y m c) :=
  ⟨fun m f y c h1 h2 h3 => add_rgb_columns_hit n keo files m f y c h1 h2 h3,
   fun m y c h => add_rgb_columns_miss n keo files m y c h,
   fun m y c h => (add_rgb_columns_miss n initialise_keogram files m y c h).trans rfl,
   fun m f y c h1 h2 h3 =>
     add_rgb_columns_hit num_minutes keo files m f y c h1 h2 h3,
   fun mp m y c h => add_rgb_columns_miss mp keo files m y c h⟩

/-- C4 witness: in a full-day pass, a valid file at minute 20 overwrites
column 20 with its data and column 21 (no file) stays white. -/
theorem C4_keogram_columns_witness :
    add_rgb_columns initialise_keogram
      (fun m => if m = 20 then some ⟨true, true, (300, 1, 3), fun _ _ _ => 9⟩
        else none) 1440 0 20 0 = 9 % 256
    ∧ add_rgb_columns initialise_keogram
      (fun m => if m = 20 then some ⟨true, true, (300, 1, 3), fun _ _ _ => 9⟩
        else none) 1440 0 21 0 = 255 :=
  ⟨(C4_keogram_columns initialise_keogram _ 1440).1 20
      ⟨true, true, (300, 1, 3), fun _ _ _ => 9⟩ 0 0 (by norm_num) rfl rfl,
   (C4_keogram_columns initialise_keogram _ 1440).2.2.1 21 0 0 (Or.inr rfl)⟩

/-! ### Claim C6 -/

/-- C6: an RGB column option is produced for a frame only when all three
emission-line extractions succeed; a missing pixel-row solution (option
`none` from `calculate_pixel_position`) or a failed extraction for any of
the three wavelengths yields `none` — no column is created and no file is
written (all-or-nothing, never a partial-channel output). -/
theorem C6_all_or_nothing (r1 r2 r3 : Option ℤ) (M : List (List ℚ))
    (binY : ℕ) (pr : ℕ × ℕ) :
    (∀ out, rgb_rows_step r1 r2 r3 M binY pr = some out →
      ∃ a b c red green blue, r1 = some a ∧ r2 = some b ∧ r3 = some c
        ∧ process_emission_line M a binY pr = some red
        ∧ process_emission_line M b binY pr = some green
        ∧ process_emission_line M c binY pr = some blue)
    ∧ (r1 = none ∨ r2 = none ∨ r3 = none →
      rgb_rows_step r1 r2 r3 M binY pr = none)
    ∧ (∀ a b c, process_emission_line M a binY pr = none
        ∨ process_emission_line M b binY pr = none
        ∨ process_emission_line M c binY pr = none →
      create_rgb_column M a b c binY pr = none) := by
  refine ⟨?_, ?_, ?_⟩
  · intro out hout
    cases r1 with
    | none => simp [rgb_rows_step] at hout
    | some a =>
      cases r2 with
      | none => simp [rgb_rows_step] at hout
      | some b =>
        cases r3 with
        | none => simp [rgb_rows_step] at hout
        | some c =>
          have hcc : create_rgb_column M a b c binY pr = some out := hout
          cases hred : process_emission_line M a binY pr with
          | none => simp [create_rgb_column, hred] at hcc
          | some red =>
            cases hgreen : process_emission_line M b binY pr with
            | none => simp [create_rgb_column, hred, hgreen] at hcc
            | some green =>
              cases hblue : process_emission_line M c binY pr with
              | none => simp [create_rgb_column, hred, hgreen, hblue] at hcc
              | some blue =>
                exact ⟨a, b, c, red, green, blue, rfl, rfl, rfl, hred, hgreen, hblue⟩
  · intro h
    rcases h with h | h | h <;> rw [h] <;> cases r1 <;> cases r2 <;> cases r3 <;> rfl
  · intro a b c h
    rcases h with h | h | h
    · simp [create_rgb_column, h]
    · cases hred : process_emission_line M a binY pr with
      | none => simp [create_rgb_column, hred]
      | some red => simp [create_rgb_column, hred, h]
    · cases hred : process_emission_line M a binY pr with
      | none => simp [create_rgb_column, hred]
      | some red =>
        cases hgreen : process_emission_line M b binY pr with
        | none => simp [create_rgb_column, hred, hgreen]
        | some green => simp [create_rgb_column, hred, hgreen, h]

/-- C6 witness: a frame whose red pixel-row solution is missing produces no
column at all. -/
theorem C6_all_or_nothing_witness :
    rgb_rows_step none (some 1) (some 2) [] 1 (0, 0) = none :=
  (C6_all_or_nothing none (some 1) (some 2) [] 1 (0, 0)).2.1 (Or.inl rfl)

/-! ### Claim C1 -/

theorem foldl_zipWith_length : ∀ (frames : List (List ℕ)) (init : List ℕ),
    (∀ f ∈ frames, f.length = init.length) →
    (frames.foldl (fun acc f => List.zipWith (fun a b => a + b) acc f) init).length
      = init.length := by
  intro frames
  induction frames with
  | nil => intro init h; rfl
  | cons f fs ih =>
    intro init h
    have hf : f.length = init.length := h f (List.mem_cons_self _ _)
    have hzip : (List.zipWith (fun a b => a + b) init f).length = init.length := by
      rw [List.length_zipWith, hf, min_self]
    rw [List.foldl_cons, ih (List.zipWith (fun a b => a + b) init f)
      (fun g hg => by rw [hzip]; exact h g (List.mem_cons_of_mem _ hg)), hzip]

theorem foldl_zipWith_getD : ∀ (frames : List (List ℕ)) (init : List ℕ) (i : ℕ),
    (∀ f ∈ frames, f.length = init.length) → i < init.length →
    (frames.foldl (fun acc f => List.zipWith (fun a b => a + b) acc f) init).getD i 0
      = init.getD i 0 + (frames.map (fun f : List ℕ => f.getD i 0)).sum := by
  intro frames
  induction frames with
  | nil => intro init i h hi; simp
  | cons f fs ih =>
    intro init i h hi
    have hf : f.length = init.length := h f (List.mem_cons_self _ _)
    have hzipLen : (List.zipWith (fun a b => a + b) init f).length = init.length := by
      rw [List.length_zipWith, hf, min_self]
    have hstep : (List.zipWith (fun a b => a + b) init f).getD i 0
        = init.getD i 0 + f.getD i 0 := by
      rw [List.getD_eq_getElem _ _ (by rw [hzipLen]; exact hi),
        List.getElem_zipWith, List.getD_eq_getElem _ _ hi,
        List.getD_eq_getElem _ _ (by rw [hf]; exact hi)]
    rw [List.foldl_cons,
      ih (List.zipWith (fun a b => a + b) init f) i
        (fun g hg => by rw [hzipLen]; exact h g (List.mem_cons_of_mem _ hg))
        (by rw [hzipLen]; exact hi),
      hstep, List.map_cons, List.sum_cons, add_assoc]

/-- C1: for a minute bucket of N ≥ 1 successfully opened frames of identical
shape with pixel values below 2^16, every output pixel of the averaging
engine equals the floor of the arithmetic mean of the N input values at that
position (float64 accumulation is exact here, the division by the count is
floored by the `uint16` cast, and the mod-2^16 wrap of that cast is the
identity on means of 16-bit values). -/
theorem C1_minute_average (frames : List (List ℕ)) (L i : ℕ)
    (hne : frames ≠ []) (hlen : ∀ f ∈ frames, f.length = L)
    (hval : ∀ f ∈ frames, ∀ v ∈ f, v < 65536) (hi : i < L) :
    (average_images_pixels frames).getD i 0
      = ⌊((frames.map (fun f : List ℕ => ((f.getD i 0 : ℕ) : ℚ))).sum)
          / ((frames.length : ℕ) : ℚ)⌋₊ := by
  have hL0 : (frames.headD []).length = L := by
    cases frames with
    | nil => exact absurd rfl hne
    | cons f fs => exact hlen f (List.mem_cons_self _ _)
  have hinitlen : (List.replicate (frames.headD []).length (0 : ℕ)).length = L := by
    rw [List.length_replicate, hL0]
  have hmemlen : ∀ f ∈ frames,
      f.length = (List.replicate (frames.headD []).length (0 : ℕ)).length := by
    intro f hf
    rw [hinitlen]
    exact hlen f hf
  have hfoldlen :
      (frames.foldl (fun acc f => List.zipWith (fun a b => a + b) acc f)
        (List.replicate (frames.headD []).length 0)).length = L := by
    rw [foldl_zipWith_length frames _ hmemlen, hinitlen]
  have hfoldval :
      (frames.foldl (fun acc f => List.zipWith (fun a b => a + b) acc f)
        (List.replicate (frames.headD []).length 0)).getD i 0
        = (frames.map (fun f : List ℕ => f.getD i 0)).sum := by
    rw [foldl_zipWith_getD frames _ i hmemlen (by rw [hinitlen]; exact hi),
      List.getD_eq_getElem _ _ (by rw [hinitlen]; exact hi),
      List.getElem_replicate, zero_add]
  have hmap : (average_images_pixels frames).getD i 0
      = ((frames.map (fun f : List ℕ => f.getD i 0)).sum / frames.length) % 65536 := by
    unfold average_images_pixels
    rw [List.getD_eq_getElem _ _ (by rw [List.length_map, hfoldlen]; exact hi),
      List.getElem_map, ← List.getD_eq_getElem _ 0 (by rw [hfoldlen]; exact hi),
      hfoldval]
  have hbound : (frames.map (fun f : List ℕ => f.getD i 0)).sum
      ≤ frames.length * 65535 := by
    have hmem : ∀ x ∈ frames.map (fun f : List ℕ => f.getD i 0), x ≤ 65535 := by
      intro x hx
      obtain ⟨f, hf, rfl⟩ := List.mem_map.1 hx
      have hfi : i < f.length := by rw [hlen f hf]; exact hi
      rw [List.getD_eq_getElem _ _ hfi]
      have := hval f hf (f[i]) (List.getElem_mem hfi)
      omega
    have := List.sum_le_card_nsmul _ 65535 hmem
    simpa [smul_eq_mul, List.length_map] using this
  have hN : 1 ≤ frames.length := by
    cases frames with
    | nil => exact absurd rfl hne
    | cons f fs => simp
  have hdivlt : (frames.map (fun f : List ℕ => f.getD i 0)).sum / frames.length
      < 65536 := by
    have h1 : (frames.map (fun f : List ℕ => f.getD i 0)).sum / frames.length
        ≤ (frames.length * 65535) / frames.length :=
      Nat.div_le_div_right hbound
    rw [Nat.mul_div_cancel_left _ (by omega)] at h1
    omega
  rw [hmap, Nat.mod_eq_of_lt hdivlt]
  rw [show frames.map (fun f : List ℕ => ((f.getD i 0 : ℕ) : ℚ))
      = (frames.map (fun f : List ℕ => f.getD i 0)).map (fun x : ℕ => (x : ℚ)) from
    (List.map_map _ _ _).symm]
  rw [← Nat.cast_list_sum, Nat.floor_div_nat, Nat.floor_natCast]

/-- C1 witness: three two-pixel frames; at position 0 the values 10, 13, 14
average to floor(37/3) = 12. -/
theorem C1_minute_average_witness :
    (average_images_pixels [[10, 20], [13, 21], [14, 22]]).getD 0 0 = 12 := by
  have h := C1_minute_average [[10, 20], [13, 21], [14, 22]] 2 0
    (by decide) (by decide) (by decide) (by decide)
  rw [h]
  rw [show (([[10, 20], [13, 21], [14, 22]] : List (List ℕ)).map
      (fun f : List ℕ => ((f.getD 0 0 : ℕ) : ℚ))).sum = ((37 : ℕ) : ℚ) by norm_num]
  rw [show (([[10, 20], [13, 21], [14, 22]] : List (List ℕ)).length : ℚ)
      = ((3 : ℕ) : ℚ) by norm_num]
  rw [Nat.floor_div_nat, Nat.floor_natCast]

/-! ### Claim C7 -/

theorem headD_mem (l : List (List ℚ)) (h : l ≠ []) : l.headD [] ∈ l := by
  cases l with
  | nil => exact absurd rfl h
  | cons x xs => exact List.mem_cons_self _ _

theorem process_core_eq_some (M : List (List ℚ)) (s e : ℤ) (p0 p1 W : ℕ)
    (hrect : ∀ row ∈ M, row.length = W) (hp0 : p0 < p1) (hp1 : p1 ≤ W)
    (hs : 0 ≤ s) (he : e ≤ (M.length : ℤ)) (hse : 2 ≤ e - s) :
    ∃ out, process_emission_line_core M s e p0 p1 = some out := by
  have hcroplen : (cropCols M p0 p1).length = M.length := List.length_map _ _
  have hslicelen : (sliceRows (cropCols M p0 p1) s e).length = (e - s).toNat := by
    unfold sliceRows
    rw [List.length_take, List.length_drop, hcroplen]
    omega
  have hXne : sliceRows (cropCols M p0 p1) s e ≠ [] := by
    apply List.length_pos.mp
    rw [hslicelen]
    omega
  have hheadmem : (sliceRows (cropCols M p0 p1) s e).headD [] ∈ cropCols M p0 p1 := by
    have h1 := headD_mem _ hXne
    unfold sliceRows at h1
    exact List.mem_of_mem_drop (List.mem_of_mem_take h1)
  have hheadlen : ((sliceRows (cropCols M p0 p1) s e).headD []).length = p1 - p0 := by
    obtain ⟨row, hrow, hEq⟩ := List.mem_map.1 hheadmem
    rw [← hEq, List.length_take, List.length_drop, hrect row hrow]
    omega
  have hmean :
      (meanCols (medfilt2d (sliceRows (cropCols M p0 p1) s e))).length = p1 - p0 := by
    rw [meanCols_length, medfilt2d_headD_length _ hXne, hheadlen]
  refine ⟨zoom1d (meanCols (medfilt2d (sliceRows (cropCols M p0 p1) s e)))
    (300 / ((meanCols (medfilt2d (sliceRows (cropCols M p0 p1) s e))).length : ℚ)), ?_⟩
  unfold process_emission_line_core
  rw [if_neg (by rw [hmean]; omega)]

/-- C7 counterexample: at binY = 1 and emission row 10 in a 30-row array,
the ask-date window is [10, 17) — 7 rows averaged, not
max(1, floor(12/1)) = 12, and the window is not centered on row 10 (0 rows
below it, 6 above); even the centered past-5-minutes window [4, 17) covers
13 rows, not 12. -/
theorem C7_counterexample_window :
    available_rows_ask 30 10 1 = 7
    ∧ num_rows_to_average 1 = 12
    ∧ (7 : ℤ) ≠ (12 : ℤ)
    ∧ (10 : ℤ) - start_row_ask 10 1 = 0
    ∧ end_row 30 10 1 - 10 - 1 = 6
    ∧ available_rows_p5 30 10 1 = 13
    ∧ (13 : ℤ) ≠ (12 : ℤ) := by decide

/-- C7 (amended): for binY ≥ 1 both extractors compute the internal
parameter `num_rows_to_average = max(1, floor(12/binY))`; the window is
`[max(0, r - binY//2), min(H, r + num_rows_to_average//2 + 1))` in the
ask-date variant (not centered) and
`[max(r - num_rows_to_average//2, 0), min(H, r + num_rows_to_average//2 + 1))`
in the past-5-minutes variant (centered, covering up to
num_rows_to_average + 1 rows), each clipped to the array bounds; and with a
nonempty spectral crop, extraction returns None exactly when the clipped
window contains fewer than 2 rows. -/
theorem C7_window (M : List (List ℚ)) (r : ℤ) (binY : ℕ) (pr : ℕ × ℕ)
    (W : ℕ) (hbin : 1 ≤ binY) (hrect : ∀ row ∈ M, row.length = W)
    (hp0 : pr.1 < pr.2) (hp1 : pr.2 ≤ W) :
    num_rows_to_average binY = max 1 (12 / binY)
    ∧ available_rows_ask M.length r binY
      = min (M.length : ℤ) (r + ((num_rows_to_average binY / 2 : ℕ) : ℤ) + 1)
        - max 0 (r - ((binY / 2 : ℕ) : ℤ))
    ∧ available_rows_p5 M.length r binY
      = min (M.length : ℤ) (r + ((num_rows_to_average binY / 2 : ℕ) : ℤ) + 1)
        - max (r - ((num_rows_to_average binY / 2 : ℕ) : ℤ)) 0
    ∧ (process_emission_line M r binY pr = none
        ↔ available_rows_ask M.length r binY < 2)
    ∧ (process_emission_line_p5 M r binY pr = none
        ↔ available_rows_p5 M.length r binY < 2) := by
  refine ⟨rfl, rfl, rfl, ?_, ?_⟩
  · constructor
    · intro h
      by_contra hlt
      push_neg at hlt
      obtain ⟨out, hout⟩ := process_core_eq_some M (start_row_ask r binY)
        (end_row M.length r binY) pr.1 pr.2 W hrect hp0 hp1
        (le_max_left _ _) (min_le_left _ _) hlt
      unfold process_emission_line at h
      rw [if_neg (not_lt.2 hlt), hout] at h
      simp at h
    · intro h
      unfold process_emission_line
      rw [if_pos h]
  · constructor
    · intro h
      by_contra hlt
      push_neg at hlt
      obtain ⟨out, hout⟩ := process_core_eq_some M (start_row_p5 r binY)
        (end_row M.length r binY) pr.1 pr.2 W hrect hp0 hp1
        (le_max_right _ _) (min_le_left _ _) hlt
      unfold process_emission_line_p5 at h
      rw [if_neg (not_lt.2 hlt), hout] at h
      simp at h
    · intro h
      unfold process_emission_line_p5
      rw [if_pos h]

/-- C7 witness: on a 30×5 constant array with spectral crop (0, 3), the
ask-date extraction fails at emission row 29 (clipped window of 1 row) and
succeeds at emission row 10. -/
theorem C7_window_witness :
    process_emission_line (List.replicate 30 (List.replicate 5 (3 : ℚ))) 29 1 (0, 3)
      = none
    ∧ process_emission_line (List.replicate 30 (List.replicate 5 (3 : ℚ))) 10 1 (0, 3)
      ≠ none := by
  have hrect : ∀ row ∈ List.replicate 30 (List.replicate 5 (3 : ℚ)),
      row.length = 5 := by
    intro row hrow
    rw [List.eq_of_mem_replicate hrow]
    exact List.length_replicate _ _
  constructor
  · exact (C7_window (List.replicate 30 (List.replicate 5 (3 : ℚ))) 29 1 (0, 3) 5
      (by norm_num) hrect (by norm_num) (by norm_num)).2.2.2.1.mpr (by decide)
  · intro hn
    have h2 := (C7_window (List.replicate 30 (List.replicate 5 (3 : ℚ))) 10 1 (0, 3) 5
      (by norm_num) hrect (by norm_num) (by norm_num)).2.2.2.1.mp hn
    exact absurd h2 (by decide)

/-! ### Claim C2 -/

theorem calculate_pixel_position_roundtrip (c0 c1 c2 r maxp : ℝ)
    (hc2 : 0 < c2) (hc1 : 0 ≤ c1) (hr : 0 ≤ r) (hmax : r ≤ maxp) :
    calculate_pixel_position (calculate_wavelength c0 c1 c2 r) c0 c1 c2 maxp 1
      = some r := by
  have hdisc : c1 ^ 2 - 4 * c2 * (c0 - calculate_wavelength c0 c1 c2 r)
      = (c1 + 2 * c2 * r) ^ 2 := by
    unfold calculate_wavelength
    ring
  have hnn : 0 ≤ c1 + 2 * c2 * r := by nlinarith
  unfold calculate_pixel_position
  rw [hdisc, Real.sqrt_sq hnn]
  have hval : (-c1 + (c1 + 2 * c2 * r)) / (2 * c2) / 1 = r := by
    rw [div_one]
    field_simp
  rw [hval, if_neg (not_lt.2 (sq_nonneg _)), if_pos ⟨hr, hmax⟩]

theorem calculate_pixel_position_ask_eval (c0 c1 c2 r maxp : ℝ)
    (hc2 : 0 < c2) (hc1 : 0 ≤ c1) (hr : 0 ≤ r) (h1 : 0 ≤ 1039 - r)
    (h2 : 1039 - r ≤ maxp) :
    calculate_pixel_position_ask (calculate_wavelength c0 c1 c2 r) c0 c1 c2 maxp 1
      = some (1039 - r) := by
  have hdisc : c1 ^ 2 - 4 * c0 * c2 + 4 * c2 * calculate_wavelength c0 c1 c2 r
      = (c1 + 2 * c2 * r) ^ 2 := by
    unfold calculate_wavelength
    ring
  have hnn : 0 ≤ c1 + 2 * c2 * r := by nlinarith
  unfold calculate_pixel_position_ask
  rw [hdisc, Real.sqrt_sq hnn]
  have hval : (c1 + 2078 * c2 - (c1 + 2 * c2 * r)) / (2 * c2) / 1 = 1039 - r := by
    rw [div_one]
    field_simp
    ring
  rw [hval, if_neg (not_lt.2 (sq_nonneg _)), if_pos ⟨h1, h2⟩]

theorem calculate_pixel_position_none_of_neg (w c0 c1 c2 maxp binY : ℝ)
    (h : c1 ^ 2 - 4 * c2 * (c0 - w) < 0) :
    calculate_pixel_position w c0 c1 c2 maxp binY = none := by
  unfold calculate_pixel_position
  rw [if_pos h]

theorem calculate_pixel_position_some_range (w c0 c1 c2 maxp binY p : ℝ)
    (h : calculate_pixel_position w c0 c1 c2 maxp binY = some p) :
    0 ≤ p ∧ p ≤ maxp := by
  unfold calculate_pixel_position at h
  split at h
  · simp at h
  · split at h
    · rename_i hcond
      rw [Option.some.inj h] at hcond
      exact hcond
    · simp at h

theorem calculate_pixel_position_ask_none_of_neg (w c0 c1 c2 maxp binY : ℝ)
    (h : c1 ^ 2 - 4 * c0 * c2 + 4 * c2 * w < 0) :
    calculate_pixel_position_ask w c0 c1 c2 maxp binY = none := by
  unfold calculate_pixel_position_ask
  rw [if_pos h]

theorem calculate_pixel_position_ask_some_range (w c0 c1 c2 maxp binY p : ℝ)
    (h : calculate_pixel_position_ask w c0 c1 c2 maxp binY = some p) :
    0 ≤ p ∧ p ≤ maxp := by
  unfold calculate_pixel_position_ask at h
  split at h
  · simp at h
  · split at h
    · rename_i hcond
      rw [Option.some.inj h] at hcond
      exact hcond
    · simp at h

theorem calculate_pixel_position_none_of_out_of_range (w c0 c1 c2 maxp binY : ℝ)
    (h : ¬ (0 ≤ (-c1 + Real.sqrt (c1 ^ 2 - 4 * c2 * (c0 - w))) / (2 * c2) / binY
      ∧ (-c1 + Real.sqrt (c1 ^ 2 - 4 * c2 * (c0 - w))) / (2 * c2) / binY ≤ maxp)) :
    calculate_pixel_position w c0 c1 c2 maxp binY = none := by
  unfold calculate_pixel_position
  by_cases hd : c1 ^ 2 - 4 * c2 * (c0 - w) < 0
  · rw [if_pos hd]
  · rw [if_neg hd, if_neg h]

theorem calculate_pixel_position_ask_none_of_out_of_range (w c0 c1 c2 maxp binY : ℝ)
    (h : ¬ (0 ≤ (c1 + 2078 * c2 - Real.sqrt (c1 ^ 2 - 4 * c0 * c2 + 4 * c2 * w))
        / (2 * c2) / binY
      ∧ (c1 + 2078 * c2 - Real.sqrt (c1 ^ 2 - 4 * c0 * c2 + 4 * c2 * w))
        / (2 * c2) / binY ≤ maxp)) :
    calculate_pixel_position_ask w c0 c1 c2 maxp binY = none := by
  unfold calculate_pixel_position_ask
  by_cases hd : c1 ^ 2 - 4 * c0 * c2 + 4 * c2 * w < 0
  · rw [if_pos hd]
  · rw [if_neg hd, if_neg h]

/-- C2 counterexample: composing the MISS2 wavelength polynomial with the
ask-date inversion at pixel row 0 (binning 1, max valid row 2077) returns
row 1039, not 0 — the ask-date variant computes 1039 - r, far outside any
rounding tolerance. -/
theorem C2_counterexample_flipped :
    calculate_pixel_position_ask (calculate_wavelength miss2_c0 miss2_c1 miss2_c2 0)
      miss2_c0 miss2_c1 miss2_c2 2077 1 = some 1039
    ∧ (1039 : ℝ) ≠ 0 := by
  have h := calculate_pixel_position_ask_eval miss2_c0 miss2_c1 miss2_c2 0 2077
    (by norm_num [miss2_c2]) (by norm_num [miss2_c1]) le_rfl (by norm_num)
    (by norm_num)
  rw [show (1039 : ℝ) - 0 = 1039 by ring] at h
  exact ⟨h, by norm_num⟩

/-- C2 (amended): for a wavelength polynomial with positive quadratic and
nonnegative linear coefficient (as for both devices) and binning factor 1,
composing the polynomial with the past-5-minutes quadratic-formula inversion
returns every valid row r exactly; the ask-date inversion instead returns
1039 - r (the row counted from the other end of the 2078-row detector)
whenever that value is in range; and for both inversions a negative
discriminant yields None, a computed binned position outside
[0, max valid row] yields None — a definite rejection, never a silently
clamped row — and every returned value lies within [0, max valid row]. -/
theorem C2_calibration_roundtrip :
    (∀ c0 c1 c2 r maxp : ℝ, 0 < c2 → 0 ≤ c1 → 0 ≤ r → r ≤ maxp →
      calculate_pixel_position (calculate_wavelength c0 c1 c2 r) c0 c1 c2 maxp 1
        = some r)
    ∧ (∀ c0 c1 c2 r maxp : ℝ, 0 < c2 → 0 ≤ c1 → 0 ≤ r → 0 ≤ 1039 - r →
      1039 - r ≤ maxp →
      calculate_pixel_position_ask (calculate_wavelength c0 c1 c2 r) c0 c1 c2 maxp 1
        = some (1039 - r))
    ∧ (∀ w c0 c1 c2 maxp binY : ℝ, c1 ^ 2 - 4 * c2 * (c0 - w) < 0 →
      calculate_pixel_position w c0 c1 c2 maxp binY = none)
    ∧ (∀ w c0 c1 c2 maxp binY p : ℝ,
      calculate_pixel_position w c0 c1 c2 maxp binY = some p → 0 ≤ p ∧ p ≤ maxp)
    ∧ (∀ w c0 c1 c2 maxp binY : ℝ, c1 ^ 2 - 4 * c0 * c2 + 4 * c2 * w < 0 →
      calculate_pixel_position_ask w c0 c1 c2 maxp binY = none)
    ∧ (∀ w c0 c1 c2 maxp binY p : ℝ,
      calculate_pixel_position_ask w c0 c1 c2 maxp binY = some p →
      0 ≤ p ∧ p ≤ maxp)
    ∧ (∀ w c0 c1 c2 maxp binY : ℝ,
      ¬ (0 ≤ (-c1 + Real.sqrt (c1 ^ 2 - 4 * c2 * (c0 - w))) / (2 * c2) / binY
        ∧ (-c1 + Real.sqrt (c1 ^ 2 - 4 * c2 * (c0 - w))) / (2 * c2) / binY ≤ maxp) →
      calculate_pixel_position w c0 c1 c2 maxp binY = none)
    ∧ (∀ w c0 c1 c2 maxp binY : ℝ,
      ¬ (0 ≤ (c1 + 2078 * c2 - Real.sqrt (c1 ^ 2 - 4 * c0 * c2 + 4 * c2 * w))
          / (2 * c2) / binY
        ∧ (c1 + 2078 * c2 - Real.sqrt (c1 ^ 2 - 4 * c0 * c2 + 4 * c2 * w))
          / (2 * c2) / binY ≤ maxp) →
      calculate_pixel_position_ask w c0 c1 c2 maxp binY = none) :=
  ⟨fun c0 c1 c2 r maxp h1 h2 h3 h4 =>
      calculate_pixel_position_roundtrip c0 c1 c2 r maxp h1 h2 h3 h4,
   fun c0 c1 c2 r maxp h1 h2 h3 h4 h5 =>
      calculate_pixel_position_ask_eval c0 c1 c2 r maxp h1 h2 h3 h4 h5,
   fun w c0 c1 c2 maxp binY h =>
      calculate_pixel_position_none_of_neg w c0 c1 c2 maxp binY h,
   fun w c0 c1 c2 maxp binY p h =>
      calculate_pixel_position_some_range w c0 c1 c2 maxp binY p h,
   fun w c0 c1 c2 maxp binY h =>
      calculate_pixel_position_ask_none_of_neg w c0 c1 c2 maxp binY h,
   fun w c0 c1 c2 maxp binY p h =>
      calculate_pixel_position_ask_some_range w c0 c1 c2 maxp binY p h,
   fun w c0 c1 c2 maxp binY h =>
      calculate_pixel_position_none_of_out_of_range w c0 c1 c2 maxp binY h,
   fun w c0 c1 c2 maxp binY h =>
      calculate_pixel_position_ask_none_of_out_of_range w c0 c1 c2 maxp binY h⟩

/-- C2 witness: the MISS2 polynomial composed with the past-5-minutes
inversion returns row 100 exactly, and at coefficients (0, 0, 1), wavelength
4, max valid row 1 the computed root 2 is out of range and the inversion
returns None rather than a clamped row. -/
theorem C2_calibration_roundtrip_witness :
    calculate_pixel_position (calculate_wavelength miss2_c0 miss2_c1 miss2_c2 100)
      miss2_c0 miss2_c1 miss2_c2 2077 1 = some 100
    ∧ calculate_pixel_position 4 0 0 1 1 1 = none :=
  ⟨C2_calibration_roundtrip.1 miss2_c0 miss2_c1 miss2_c2 100 2077
    (by norm_num [miss2_c2]) (by norm_num [miss2_c1]) (by norm_num) (by norm_num),
   C2_calibration_roundtrip.2.2.2.2.2.2.1 4 0 0 1 1 1 (by
    rw [show (0 : ℝ) ^ 2 - 4 * 1 * ((0 : ℝ) - 4) = 4 ^ 2 by norm_num,
      Real.sqrt_sq (by norm_num)]
    norm_num)⟩
